import Mathlib

/-
Verification of the booking feasibility and capacity engine of the
reservation_system repository (Django app `reservations`).

The Python source is embedded shallowly:
  * dates are day indices (Nat); the weekday of a date is supplied by the
    environment (`Env.weekdayOf`), mirroring `date.weekday()`;
  * times of day are minutes after midnight (Nat); `datetime.combine` plus
    interval comparison between two reservations that share one date reduces
    to comparison of these minute values, which is how every comparison in
    the source is performed (all overlap checks are same-date);
  * Django querysets become list filters over the reservation table carried
    in the environment; `objects.first()` becomes `List.find?`;
  * `form.add_error(field, msg)` becomes appending a `(FormField, ReasonCode)`
    pair; the message strings themselves carry no logic and are replaced by
    the `ReasonCode` enumeration (one code per distinct `add_error` site);
  * the presentational `calm / busy / very_busy` level strings of the
    dashboard (views.compute_level) are carried by no claim and are omitted
    from the hourly rollup embedding, which keeps the four load metrics,
    the omission rule and the `is_past` flag exactly as computed.
-/

/- Enumerations of reservations/models.py. -/

inductive SeatingPreference
  | noPreference
  | indoorOnly
  | outdoorIfPossible
deriving DecidableEq

inductive ResStatus
  | pending
  | confirmed
  | seated
  | completed
  | noShow
  | cancelled
deriving DecidableEq

/- A persisted reservation row (reservations/models.py, class Reservation).
Contact fields carry no engine logic and are omitted from the row; assigned
tables are their id list. -/

structure Reservation where
  pk : Nat
  date : Nat
  time : Nat
  party_size : Nat
  seating_preference : SeatingPreference
  status : ResStatus
  tables : List Nat
deriving DecidableEq

/- RestaurantSettings (reservations/models.py): the singleton configuration
row, all numeric fields. -/

structure RestaurantSettings where
  indoor_capacity : Nat
  outdoor_capacity : Nat
  dwell_minutes : Nat
  max_party_size_indoor : Nat
  max_party_size_outdoor : Nat
  medium_group_min_size : Nat
  medium_group_max_size : Nat
  large_group_min_size : Nat
  very_large_group_min_size : Nat
  max_large_groups_indoor : Nat
  max_very_large_groups_indoor : Nat
  max_large_groups_outdoor : Nat
  reservations_open : Bool
deriving DecidableEq

/- OpeningHours row (reservations/models.py). -/

structure OpeningHoursRow where
  weekday : Nat
  is_open : Bool
  open_time : Option Nat
  close_time : Option Nat
  last_res_time : Option Nat
deriving DecidableEq

/- OpeningHours.effective_last_res_time: `self.last_res_time or
self.close_time` (time objects are always truthy, so this is a None check). -/

def OpeningHoursRow.effective_last_res_time (oh : OpeningHoursRow) : Option Nat :=
  match oh.last_res_time with
  | some t => some t
  | none => oh.close_time

/- SpecialOpeningDay row (reservations/models.py); the public message carries
no logic. -/

structure SpecialOpeningDay where
  date : Nat
  is_open : Bool
  bookings_open_from : Nat
  open_time : Option Nat
  close_time : Option Nat
  last_res_time : Option Nat
deriving DecidableEq

/- Module-level constants of reservations/forms.py. -/

def DEFAULT_INDOOR_CAPACITY : Nat := 42

def DEFAULT_OUTDOOR_CAPACITY : Nat := 54

def MAX_PARTY_SIZE : Nat := 12

def OUTDOOR_MAX_PARTY_SIZE : Nat := 8

def DWELL_MINUTES : Nat := 90

def LARGE_PARTY_THRESHOLD : Nat := 7

def MAX_LARGE_GROUPS_SIMULTANEOUS : Nat := 2

def VERY_LARGE_PARTY_THRESHOLD : Nat := 9

def MEDIUM_PARTY_MIN : Nat := 5

def MEDIUM_PARTY_MAX : Nat := 6

def MIN_LEAD_MINUTES : Nat := 15

def INDOOR_PREFERENCES : List SeatingPreference :=
  [SeatingPreference.indoorOnly, SeatingPreference.noPreference]

def OUTDOOR_PREFERENCES : List SeatingPreference :=
  [SeatingPreference.outdoorIfPossible]

/- get_capacity_limits (forms.py): settings row if present, else defaults. -/

def get_capacity_limits (settings : Option RestaurantSettings) : Nat × Nat :=
  match settings with
  | some s => (s.indoor_capacity, s.outdoor_capacity)
  | none => (DEFAULT_INDOOR_CAPACITY, DEFAULT_OUTDOOR_CAPACITY)

/- The 7-tuple returned by get_group_rules (forms.py), as a structure. -/

structure GroupRules where
  medium_min : Nat
  medium_max : Nat
  large_min : Nat
  very_large_min : Nat
  max_large_indoor : Nat
  max_very_large_indoor : Nat
  max_large_outdoor : Nat
deriving DecidableEq

/- get_group_rules (forms.py): configured values when a settings row exists,
otherwise the hard-coded fall-back tuple
(MEDIUM_PARTY_MIN, MEDIUM_PARTY_MAX, LARGE_PARTY_THRESHOLD,
 VERY_LARGE_PARTY_THRESHOLD, MAX_LARGE_GROUPS_SIMULTANEOUS, 1, 2). -/

def get_group_rules (settings : Option RestaurantSettings) : GroupRules :=
  match settings with
  | some s =>
    { medium_min := s.medium_group_min_size
      medium_max := s.medium_group_max_size
      large_min := s.large_group_min_size
      very_large_min := s.very_large_group_min_size
      max_large_indoor := s.max_large_groups_indoor
      max_very_large_indoor := s.max_very_large_groups_indoor
      max_large_outdoor := s.max_large_groups_outdoor }
  | none =>
    { medium_min := MEDIUM_PARTY_MIN
      medium_max := MEDIUM_PARTY_MAX
      large_min := LARGE_PARTY_THRESHOLD
      very_large_min := VERY_LARGE_PARTY_THRESHOLD
      max_large_indoor := MAX_LARGE_GROUPS_SIMULTANEOUS
      max_very_large_indoor := 1
      max_large_outdoor := 2 }

/- The environment a single evaluation reads: the configuration row, the two
calendars, the reservation table, and the clock. `weekdayOf` is the calendar
map from a day index to its weekday (`date.weekday()`); `nowMinutes` is the
local wall-clock time of `today` in minutes. -/

structure Env where
  settings : Option RestaurantSettings
  openingHours : List OpeningHoursRow
  specialDays : List SpecialOpeningDay
  reservations : List Reservation
  today : Nat
  nowMinutes : Nat
  weekdayOf : Nat → Nat

/- The form's cleaned_data relevant to ReservationForm.clean: optional fields
are the ones `cleaned_data.get` may return as missing. An absent or empty
email/phone string is falsy in the source. -/

structure Candidate where
  email : String
  phone : String
  date : Option Nat
  time : Option Nat
  party_size : Option Nat
  seating_preference : Option SeatingPreference
deriving DecidableEq

/- The form field an error is attached to by add_error. -/

inductive FormField
  | email
  | phone
  | date
  | time
  | party_size
  | seating_preference
  | nonField
deriving DecidableEq

/- One code per distinct add_error site of ReservationForm.clean, plus
`configFault`, a code the engine could use to surface a broken configuration;
the source never emits it (claim C6). -/

inductive ReasonCode
  | partySizeIndoorCap
  | partySizeOutdoorCap
  | emailRequired
  | phoneRequired
  | pastDate
  | specialNotOpenYet
  | closedDay
  | timeOutside
  | leadTime
  | fullyBooked
  | suggestOutdoor
  | veryLargeCap
  | largeCapIndoor
  | mediumWithLarge
  | largeCapOutdoor
  | configFault
deriving DecidableEq

abbrev Err : Type := FormField × ReasonCode

/- THE shared half-open interval intersection test. Every overlap check in
the source is literally `otherStart < refEnd and refStart < otherEnd`:
forms.py ReservationForm.clean lines 366-369 and 401-404, views.py
build_capacity_timeblocks line 122, views.py get_blocked_table_ids line 242,
forms.py ReservationAdminForm line 547. -/

def overlaps (aStart aEnd bStart bEnd : Nat) : Bool :=
  decide (aStart < bEnd ∧ bStart < aEnd)

/- Party-size limit block of ReservationForm.clean (`if party_size:` -- a
zero or missing party size skips the block). Indoor cap first, then the
outdoor-preference cap; both compare against the module constants. -/

def party_size_errors (c : Candidate) : List Err :=
  match c.party_size with
  | none => []
  | some p =>
    if p = 0 then []
    else
      (if p > MAX_PARTY_SIZE then [(FormField.party_size, ReasonCode.partySizeIndoorCap)] else [])
        ++ (if OUTDOOR_PREFERENCES.any (fun z => c.seating_preference == some z)
              ∧ p > OUTDOOR_MAX_PARTY_SIZE
            then [(FormField.party_size, ReasonCode.partySizeOutdoorCap)] else [])

/- Email/phone presence block of ReservationForm.clean. -/

def contact_errors (c : Candidate) : List Err :=
  (if c.email = "" then [(FormField.email, ReasonCode.emailRequired)] else [])
    ++ (if c.phone = "" then [(FormField.phone, ReasonCode.phoneRequired)] else [])

/- No-past-dates block of ReservationForm.clean. -/

def past_date_errors (env : Env) (c : Candidate) : List Err :=
  match c.date with
  | none => []
  | some d => if d < env.today then [(FormField.date, ReasonCode.pastDate)] else []

/- Condition of the special-day early return of ReservationForm.clean: a
SpecialOpeningDay row exists for the date and today precedes its
bookings_open_from. When it holds, clean adds the date error and returns at
once. -/

def special_blocked (env : Env) (c : Candidate) : Bool :=
  match c.date with
  | none => false
  | some d =>
    match env.specialDays.find? (fun sp => sp.date == d) with
    | none => false
    | some sp => decide (env.today < sp.bookings_open_from)

/- Opening-hours block of ReservationForm.clean: the weekday row is looked
up (`OpeningHours.objects.filter(weekday=weekday).first()`); a missing or
closed row yields the closed-day error; the time-range check runs only when
the row exists and is open, comparing against open_time and
effective_last_res_time. Note the source consults only the weekday row here;
a SpecialOpeningDay's own hours never enter this block. -/

def opening_errors (env : Env) (c : Candidate) : List Err :=
  match c.date with
  | none => []
  | some d =>
    let opening := env.openingHours.find? (fun oh => oh.weekday == env.weekdayOf d)
    let closedErrs :=
      match opening with
      | none => [(FormField.date, ReasonCode.closedDay)]
      | some oh => if oh.is_open then [] else [(FormField.date, ReasonCode.closedDay)]
    let timeErrs :=
      match c.time, opening with
      | some t, some oh =>
        if oh.is_open then
          let last_res := oh.effective_last_res_time
          let tooEarly := match oh.open_time with | some ot => decide (t < ot) | none => false
          let tooLate := match last_res with | some lr => decide (t > lr) | none => false
          if tooEarly || tooLate then [(FormField.time, ReasonCode.timeOutside)] else []
        else []
      | _, _ => []
    closedErrs ++ timeErrs

/- Same-day minimum lead-time block of ReservationForm.clean. The cutoff is
`(now + 15 minutes).time()`, which wraps at midnight, hence the mod 1440. -/

def lead_time_errors (env : Env) (c : Candidate) : List Err :=
  match c.date, c.time with
  | some d, some t =>
    if d = env.today then
      let cutoff := (env.nowMinutes + MIN_LEAD_MINUTES) % 1440
      if t ≤ cutoff then [(FormField.time, ReasonCode.leadTime)] else []
    else []
  | _, _ => []

/- The queryset `Reservation.objects.filter(date=date,
seating_preference__in=zone_prefs).exclude(status=CANCELLED)`. -/

def activeSameDatePrefs (db : List Reservation) (d : Nat)
    (zone_prefs : List SeatingPreference) : List Reservation :=
  db.filter (fun r =>
    r.date == d && zone_prefs.any (fun z => r.seating_preference == z)
      && !(r.status == ResStatus.cancelled))

/- The four running counters of the capacity loop in ReservationForm.clean. -/

structure Tally where
  guests : Nat
  large : Nat
  veryLarge : Nat
  medium : Nat
deriving DecidableEq

/- One iteration of the capacity loop (forms.py lines 359-382): an
overlapping reservation adds its party size, and is classified by the
configured thresholds; a very-large group also counts as large. -/

def tallyStep (gr : GroupRules) (requested_start requested_end : Nat)
    (acc : Tally) (r : Reservation) : Tally :=
  let existing_start := r.time
  let existing_end := existing_start + DWELL_MINUTES
  if overlaps existing_start existing_end requested_start requested_end then
    let size := r.party_size
    if gr.very_large_min ≤ size then
      { acc with guests := acc.guests + r.party_size,
                 veryLarge := acc.veryLarge + 1, large := acc.large + 1 }
    else if gr.large_min ≤ size then
      { acc with guests := acc.guests + r.party_size, large := acc.large + 1 }
    else if gr.medium_min ≤ size ∧ size ≤ gr.medium_max then
      { acc with guests := acc.guests + r.party_size, medium := acc.medium + 1 }
    else
      { acc with guests := acc.guests + r.party_size }
  else acc

def tallyConcurrent (gr : GroupRules) (requested_start requested_end : Nat)
    (l : List Reservation) : Tally :=
  l.foldl (tallyStep gr requested_start requested_end) ⟨0, 0, 0, 0⟩

/- The inner loop of the suggest-outdoor fallback (forms.py lines 397-405):
total party size of overlapping active outdoor reservations. -/

def outdoorOverlapTotal (requested_start requested_end : Nat)
    (l : List Reservation) : Nat :=
  l.foldl (fun acc r =>
    if overlaps r.time (r.time + DWELL_MINUTES) requested_start requested_end
    then acc + r.party_size else acc) 0

/- Capacity-with-dwell and group-tier block of ReservationForm.clean (lines
333-488), guarded by `if date and time_value and party_size:`. The structure
mirrors the source: zone selection, the overlap tally, the seat-capacity
gate with its suggest-outdoor fallback and early returns, then the tier
rules. Existing reservations are classified by the configured `gr`
thresholds, while the candidate itself is classified by the module constants
VERY_LARGE_PARTY_THRESHOLD / LARGE_PARTY_THRESHOLD / MEDIUM_PARTY_MIN-MAX,
and the caps are the literal `>= 1`, MAX_LARGE_GROUPS_SIMULTANEOUS and `> 2`
of the source. -/

def capacity_tier_errors (env : Env) (gr : GroupRules)
    (indoor_capacity outdoor_capacity : Nat) (c : Candidate) : List Err :=
  match c.date, c.time, c.party_size with
  | some date, some time_value, some party_size =>
    if party_size = 0 then []
    else
      let outdoorZone := OUTDOOR_PREFERENCES.any (fun z => c.seating_preference == some z)
      let max_capacity := if outdoorZone then outdoor_capacity else indoor_capacity
      let zone_prefs := if outdoorZone then OUTDOOR_PREFERENCES else INDOOR_PREFERENCES
      let requested_start := time_value
      let requested_end := requested_start + DWELL_MINUTES
      let existing_reservations := activeSameDatePrefs env.reservations date zone_prefs
      let tly := tallyConcurrent gr requested_start requested_end existing_reservations
      if tly.guests + party_size > max_capacity then
        if !outdoorZone && (c.seating_preference == some SeatingPreference.noPreference) then
          let outdoor_existing := activeSameDatePrefs env.reservations date OUTDOOR_PREFERENCES
          let total := outdoorOverlapTotal requested_start requested_end outdoor_existing
          if total + party_size ≤ outdoor_capacity then
            [(FormField.seating_preference, ReasonCode.suggestOutdoor)]
          else
            [(FormField.time, ReasonCode.fullyBooked)]
        else
          [(FormField.time, ReasonCode.fullyBooked)]
      else
        let new_size := party_size
        let new_is_very_large := VERY_LARGE_PARTY_THRESHOLD ≤ new_size
        let new_is_large := LARGE_PARTY_THRESHOLD ≤ new_size
        let new_is_medium := MEDIUM_PARTY_MIN ≤ new_size ∧ new_size ≤ MEDIUM_PARTY_MAX
        if !outdoorZone then
          (if new_is_very_large ∧ tly.veryLarge ≥ 1
           then [(FormField.time, ReasonCode.veryLargeCap)] else [])
            ++ (if new_is_large ∧ tly.large + 1 > MAX_LARGE_GROUPS_SIMULTANEOUS
                then [(FormField.time, ReasonCode.largeCapIndoor)] else [])
            ++ (let effective_large_count := if new_is_large then tly.large + 1 else tly.large
                if effective_large_count ≥ 2 then
                  let effective_medium_count :=
                    if new_is_medium then tly.medium + 1 else tly.medium
                  if effective_medium_count > 1
                  then [(FormField.time, ReasonCode.mediumWithLarge)] else []
                else [])
        else
          (if new_is_large ∧ tly.large + 1 > 2
           then [(FormField.time, ReasonCode.largeCapOutdoor)] else [])
  | _, _, _ => []

/- ReservationForm.clean as a whole: the check blocks in source order, with
the special-day early return cutting off everything after it. -/

def clean (env : Env) (c : Candidate) : List Err :=
  let caps := get_capacity_limits env.settings
  let gr := get_group_rules env.settings
  let pre := party_size_errors c ++ contact_errors c ++ past_date_errors env c
  if special_blocked env c then
    pre ++ [(FormField.date, ReasonCode.specialNotOpenYet)]
  else
    pre ++ opening_errors env c ++ lead_time_errors env c
      ++ capacity_tier_errors env gr caps.1 caps.2 c

/- A 15-minute dashboard bucket as produced by build_capacity_timeblocks
(views.py): slot start in minutes and the four load metrics. The slot end
and the level strings are derived presentation and carry no claim. -/

structure TimeBlock where
  start : Nat
  indoor : Nat
  outdoor : Nat
  unassigned : Nat
  total : Nat
deriving DecidableEq

/- An hourly rollup bucket of aggregate_hourly (views.py): `stop` is the
source's `end` key (hour start plus one hour). -/

structure HourBlock where
  start : Nat
  stop : Nat
  indoor : Nat
  outdoor : Nat
  unassigned : Nat
  total : Nat
  is_past : Bool
deriving DecidableEq

/- `block["start"].replace(minute=0, second=0, microsecond=0)`: floor a
minute value to its clock hour. -/

def hourOf (m : Nat) : Nat := m / 60 * 60

def insertSorted (x : Nat) : List Nat → List Nat
  | [] => [x]
  | y :: ys => if x ≤ y then x :: y :: ys else y :: insertSorted x ys

def sortNat (l : List Nat) : List Nat := l.foldr insertSorted []

/- Per-hour running maximum of one metric: the dict entry starts at 0 and is
`max`-folded over the hour's blocks in order, exactly the source's
`entry[k] = max(entry[k], block[k])` restricted to the blocks whose floored
start equals the hour key. -/

def hourMax (tbs : List TimeBlock) (h : Nat) (f : TimeBlock → Nat) : Nat :=
  ((tbs.filter (fun b => hourOf b.start == h)).map f).foldl max 0

/- aggregate_hourly (views.py): group the 15-minute blocks by clock hour,
take the maximum of each metric inside the hour, drop hours whose total
maximum is zero, emit in ascending hour order (`sorted(hourly.items())`),
and flag `is_past` when a `now` is supplied and the hour's end is at or
before it. -/

def aggregate_hourly (tbs : List TimeBlock) (now : Option Nat) : List HourBlock :=
  if tbs = [] then []
  else
    let keys := sortNat ((tbs.map (fun b => hourOf b.start)).dedup)
    keys.filterMap (fun h =>
      let ind := hourMax tbs h (fun b => b.indoor)
      let od := hourMax tbs h (fun b => b.outdoor)
      let un := hourMax tbs h (fun b => b.unassigned)
      let tot := hourMax tbs h (fun b => b.total)
      if tot = 0 then none
      else
        some { start := h, stop := h + 60, indoor := ind, outdoor := od,
               unassigned := un, total := tot,
               is_past := match now with
                 | some n => decide (h + 60 ≤ n)
                 | none => false })

/- get_blocked_table_ids (views.py): table ids of every other same-date
reservation, not Cancelled and not NoShow, whose dwell window overlaps; a
missing date or time on the subject reservation short-circuits to the empty
set. The subject's pk, date, time are passed explicitly (on a form instance
date or time may be absent; persisted rows always carry them). The set is
represented as the list of collected ids: only membership is meaningful. -/

def get_blocked_table_ids (db : List Reservation) (selfPk : Nat)
    (rdate rtime : Option Nat) (dwell : Nat) : List Nat :=
  match rdate, rtime with
  | some d, some t =>
    let start := t
    let stop := t + dwell
    let others := db.filter (fun o =>
      o.date == d && !(o.pk == selfPk)
        && !(o.status == ResStatus.cancelled) && !(o.status == ResStatus.noShow))
    others.foldl (fun blocked o =>
      let other_start := o.time
      let other_end := other_start + dwell
      if overlaps other_start other_end start stop then blocked ++ o.tables
      else blocked) []
  | _, _ => []

/- Result of the staff_update_tables endpoint (views.py): clearing, a 404 on
an unknown or inactive table, the already-in-use conflict, or the assignment
replacing the reservation's table set with the single table. -/

inductive AssignResult
  | cleared (r : Reservation)
  | notFound
  | rejectedAlreadyInUse
  | assigned (r : Reservation)
deriving DecidableEq

/- staff_update_tables (views.py): blocked set first; an empty selection
clears and always succeeds; the table must exist among the active table ids
(`get_object_or_404(Table, pk=..., is_active=True)`); a table in the blocked
set is rejected as already in use, with no exemption for a table already
assigned to this reservation; otherwise `reservation.tables.set([table])`. -/

def staff_update_tables (db : List Reservation) (rv : Reservation)
    (dwell : Nat) (activeTables : List Nat) (tableSel : Option Nat) : AssignResult :=
  let blocked := get_blocked_table_ids db rv.pk (some rv.date) (some rv.time) dwell
  match tableSel with
  | none => AssignResult.cleared { rv with tables := [] }
  | some tid =>
    if !activeTables.contains tid then AssignResult.notFound
    else if blocked.contains tid then AssignResult.rejectedAlreadyInUse
    else AssignResult.assigned { rv with tables := [tid] }

/- Spec-side characterizations used in theorem statements: the overlapping
same-zone active reservations of a candidate window, their summed load, and
their tier counts under a given rule set. These restate section 4.1/4.2 of
the specification independently of the loop above; the lemmas below connect
them to the loop. -/

def overlapsWin (requested_start requested_end : Nat) (r : Reservation) : Bool :=
  overlaps r.time (r.time + DWELL_MINUTES) requested_start requested_end

def overlappingZone (db : List Reservation) (d : Nat)
    (prefs : List SeatingPreference) (t : Nat) : List Reservation :=
  (activeSameDatePrefs db d prefs).filter (overlapsWin t (t + DWELL_MINUTES))

def zoneOverlapLoad (db : List Reservation) (d : Nat)
    (prefs : List SeatingPreference) (t : Nat) : Nat :=
  ((overlappingZone db d prefs t).map (fun r => r.party_size)).sum

def isVeryLargeExisting (gr : GroupRules) (r : Reservation) : Bool :=
  decide (gr.very_large_min ≤ r.party_size)

def isLargeExisting (gr : GroupRules) (r : Reservation) : Bool :=
  decide (gr.very_large_min ≤ r.party_size ∨ gr.large_min ≤ r.party_size)

def isMediumExisting (gr : GroupRules) (r : Reservation) : Bool :=
  decide (r.party_size < gr.very_large_min ∧ r.party_size < gr.large_min ∧
    gr.medium_min ≤ r.party_size ∧ r.party_size ≤ gr.medium_max)

def veryLargeOverlapCount (gr : GroupRules) (db : List Reservation) (d : Nat)
    (prefs : List SeatingPreference) (t : Nat) : Nat :=
  ((overlappingZone db d prefs t).filter (isVeryLargeExisting gr)).length

def largeOverlapCount (gr : GroupRules) (db : List Reservation) (d : Nat)
    (prefs : List SeatingPreference) (t : Nat) : Nat :=
  ((overlappingZone db d prefs t).filter (isLargeExisting gr)).length

def mediumOverlapCount (gr : GroupRules) (db : List Reservation) (d : Nat)
    (prefs : List SeatingPreference) (t : Nat) : Nat :=
  ((overlappingZone db d prefs t).filter (isMediumExisting gr)).length

/- Zone classification of a candidate, as section 4.2 step 7 words it:
OutdoorIfPossible is the outdoor zone, everything else (IndoorOnly,
NoPreference, or an unset preference) the indoor zone. -/

def zonePrefsOf (pref : Option SeatingPreference) : List SeatingPreference :=
  if pref = some SeatingPreference.outdoorIfPossible
  then OUTDOOR_PREFERENCES else INDOOR_PREFERENCES

def zoneCapacityOf (settings : Option RestaurantSettings)
    (pref : Option SeatingPreference) : Nat :=
  if pref = some SeatingPreference.outdoorIfPossible
  then (get_capacity_limits settings).2 else (get_capacity_limits settings).1

/- Monotonicity invariant on the configured tier boundaries, as stated in
section 3 of the specification. -/

def tierBoundariesMonotonic (s : RestaurantSettings) : Prop :=
  s.medium_group_min_size ≤ s.medium_group_max_size ∧
    s.medium_group_max_size < s.large_group_min_size ∧
    s.large_group_min_size ≤ s.very_large_group_min_size

instance (s : RestaurantSettings) : Decidable (tierBoundariesMonotonic s) := by
  unfold tierBoundariesMonotonic
  infer_instance

/- Concrete fixtures used by witnesses and counterexamples below. -/

def ohMonOpen : OpeningHoursRow :=
  { weekday := 0, is_open := true, open_time := some 600,
    close_time := some 1320, last_res_time := none }

def resIndoor40 : Reservation :=
  { pk := 1, date := 10, time := 720, party_size := 40,
    seating_preference := SeatingPreference.indoorOnly,
    status := ResStatus.confirmed, tables := [] }

def envC1 : Env :=
  { settings := none, openingHours := [ohMonOpen], specialDays := [],
    reservations := [resIndoor40], today := 5, nowMinutes := 0,
    weekdayOf := fun _ => 0 }

def candC1 : Candidate :=
  { email := "a@b.c", phone := "1", date := some 10, time := some 780,
    party_size := some 5,
    seating_preference := some SeatingPreference.noPreference }

def settingsC3 : RestaurantSettings :=
  { indoor_capacity := 100, outdoor_capacity := 100, dwell_minutes := 90,
    max_party_size_indoor := 12, max_party_size_outdoor := 8,
    medium_group_min_size := 3, medium_group_max_size := 4,
    large_group_min_size := 5, very_large_group_min_size := 6,
    max_large_groups_indoor := 2, max_very_large_groups_indoor := 1,
    max_large_groups_outdoor := 2, reservations_open := true }

def resIndoor5 : Reservation :=
  { pk := 1, date := 10, time := 720, party_size := 5,
    seating_preference := SeatingPreference.indoorOnly,
    status := ResStatus.confirmed, tables := [] }

def envC3 : Env :=
  { settings := some settingsC3, openingHours := [ohMonOpen], specialDays := [],
    reservations := [resIndoor5, { resIndoor5 with pk := 2 }],
    today := 5, nowMinutes := 0, weekdayOf := fun _ => 0 }

def candC3 : Candidate :=
  { email := "a@b.c", phone := "1", date := some 10, time := some 720,
    party_size := some 5,
    seating_preference := some SeatingPreference.noPreference }

def resIndoor9 : Reservation :=
  { pk := 1, date := 10, time := 720, party_size := 9,
    seating_preference := SeatingPreference.indoorOnly,
    status := ResStatus.confirmed, tables := [] }

def envC3w : Env := { envC3 with settings := none, reservations := [resIndoor9] }

def candC3w : Candidate := { candC3 with party_size := some 9 }

def settingsC4 : RestaurantSettings :=
  { settingsC3 with
    medium_group_min_size := 5
    medium_group_max_size := 6
    large_group_min_size := 7
    very_large_group_min_size := 9
    max_party_size_indoor := 5
    max_party_size_outdoor := 3 }

def envC4 : Env := { envC3 with settings := some settingsC4, reservations := [] }

def candC4 : Candidate :=
  { candC3 with
    party_size := some 6
    seating_preference := some SeatingPreference.indoorOnly }

def candC4w : Candidate := { candC3 with party_size := some 13 }

def spC5 : SpecialOpeningDay :=
  { date := 200, is_open := true, bookings_open_from := 50,
    open_time := some 600, close_time := some 1320, last_res_time := none }

def envC5 : Env :=
  { settings := none,
    openingHours := [{ weekday := 2, is_open := false, open_time := none,
                       close_time := none, last_res_time := none }],
    specialDays := [spC5], reservations := [], today := 100, nowMinutes := 0,
    weekdayOf := fun _ => 2 }

def candC5 : Candidate :=
  { email := "a@b.c", phone := "1", date := some 200, time := some 720,
    party_size := some 4,
    seating_preference := some SeatingPreference.noPreference }

def settingsC6 : RestaurantSettings :=
  { settingsC3 with
    medium_group_min_size := 10
    medium_group_max_size := 2
    large_group_min_size := 1
    very_large_group_min_size := 0 }

def envC6 : Env := { envC3 with settings := some settingsC6, reservations := [] }

def candC6 : Candidate := { candC3 with party_size := some 2 }

def spC7 : SpecialOpeningDay :=
  { date := 300, is_open := true, bookings_open_from := 400,
    open_time := none, close_time := none, last_res_time := none }

def envC7 : Env :=
  { settings := none, openingHours := [ohMonOpen], specialDays := [spC7],
    reservations := [], today := 250, nowMinutes := 0, weekdayOf := fun _ => 0 }

def candC7 : Candidate :=
  { email := "a@b.c", phone := "1", date := some 300, time := some 720,
    party_size := some 4,
    seating_preference := some SeatingPreference.noPreference }

def tbsC8 : List TimeBlock :=
  [{ start := 1140, indoor := 10, outdoor := 0, unassigned := 0, total := 10 },
   { start := 1155, indoor := 25, outdoor := 0, unassigned := 0, total := 25 },
   { start := 1170, indoor := 15, outdoor := 0, unassigned := 0, total := 15 }]

def hbC8 : HourBlock :=
  { start := 1140, stop := 1200, indoor := 25, outdoor := 0, unassigned := 0,
    total := 25, is_past := true }

def resOtherC9 : Reservation :=
  { pk := 2, date := 10, time := 720, party_size := 4,
    seating_preference := SeatingPreference.indoorOnly,
    status := ResStatus.confirmed, tables := [1] }

def resSelfC9 : Reservation :=
  { resOtherC9 with pk := 1, party_size := 2, tables := [1] }

/- Helper lemmas. -/

theorem any_outdoor_eq (p : Option SeatingPreference) :
    (OUTDOOR_PREFERENCES.any (fun z => p == some z))
      = (p == some SeatingPreference.outdoorIfPossible) := by
  simp [OUTDOOR_PREFERENCES]

theorem foldl_max_init_le (l : List Nat) (a : Nat) : a ≤ l.foldl max a := by
  induction l generalizing a with
  | nil => simp
  | cons x t ih =>
    simp only [List.foldl_cons]
    exact le_trans (le_max_left a x) (ih (max a x))

theorem le_foldl_max (l : List Nat) (a x : Nat) (hx : x ∈ l) : x ≤ l.foldl max a := by
  induction l generalizing a with
  | nil => cases hx
  | cons y t ih =>
    simp only [List.foldl_cons]
    rcases List.mem_cons.mp hx with h | h
    · subst h
      exact le_trans (le_max_right a x) (foldl_max_init_le t (max a x))
    · exact ih (max a y) h

theorem foldl_max_cases (l : List Nat) (a : Nat) :
    l.foldl max a = a ∨ l.foldl max a ∈ l := by
  induction l generalizing a with
  | nil => left; rfl
  | cons y t ih =>
    simp only [List.foldl_cons]
    rcases ih (max a y) with h | h
    · rcases max_cases a y with ⟨hm, _⟩ | ⟨hm, _⟩
      · left; rw [h, hm]
      · right; rw [h, hm]; exact List.mem_cons_self y t
    · right; exact List.mem_cons_of_mem y h

theorem mem_insertSorted (x y : Nat) (l : List Nat) :
    y ∈ insertSorted x l ↔ y = x ∨ y ∈ l := by
  induction l with
  | nil => simp [insertSorted]
  | cons z t ih =>
    unfold insertSorted
    by_cases h : x ≤ z
    · simp [h]
    · simp [h, ih]
      tauto

theorem mem_sortNat (x : Nat) (l : List Nat) : x ∈ sortNat l ↔ x ∈ l := by
  unfold sortNat
  induction l with
  | nil => simp
  | cons y t ih =>
    simp only [List.foldr_cons, mem_insertSorted, List.mem_cons]
    rw [ih]

theorem isMediumExisting_of_veryLarge (gr : GroupRules) (r : Reservation)
    (h : gr.very_large_min ≤ r.party_size) : isMediumExisting gr r = false := by
  simp only [isMediumExisting, decide_eq_false_iff_not]
  intro hc
  omega

theorem tally_foldl_spec (gr : GroupRules) (rs re : Nat) (l : List Reservation)
    (acc : Tally) :
    l.foldl (tallyStep gr rs re) acc =
      { guests := acc.guests + ((l.filter (overlapsWin rs re)).map (fun r => r.party_size)).sum
        large := acc.large + ((l.filter (overlapsWin rs re)).filter (isLargeExisting gr)).length
        veryLarge := acc.veryLarge
          + ((l.filter (overlapsWin rs re)).filter (isVeryLargeExisting gr)).length
        medium := acc.medium
          + ((l.filter (overlapsWin rs re)).filter (isMediumExisting gr)).length } := by
  induction l generalizing acc with
  | nil => simp
  | cons r t ih =>
    simp only [List.foldl_cons, List.filter_cons]
    rw [ih]
    by_cases hov : overlapsWin rs re r = true
    · have hov' : overlaps r.time (r.time + DWELL_MINUTES) rs re = true := hov
      by_cases hvl : gr.very_large_min ≤ r.party_size
      · have hV : isVeryLargeExisting gr r = true := by
          simp [isVeryLargeExisting, hvl]
        have hL : isLargeExisting gr r = true := by
          simp [isLargeExisting, hvl]
        have hM : isMediumExisting gr r = false := isMediumExisting_of_veryLarge gr r hvl
        simp [tallyStep, hov, hov', hvl, hV, hL, hM, Tally.mk.injEq]
        omega
      · by_cases hlg : gr.large_min ≤ r.party_size
        · have hV : isVeryLargeExisting gr r = false := by
            simp [isVeryLargeExisting, hvl]
          have hL : isLargeExisting gr r = true := by
            simp [isLargeExisting, hlg]
          have hM : isMediumExisting gr r = false := by
            simp only [isMediumExisting, decide_eq_false_iff_not]
            intro hc
            omega
          simp [tallyStep, hov, hov', hvl, hlg, hV, hL, hM, Tally.mk.injEq]
          omega
        · by_cases hmd : gr.medium_min ≤ r.party_size ∧ r.party_size ≤ gr.medium_max
          · have hV : isVeryLargeExisting gr r = false := by
              simp [isVeryLargeExisting, hvl]
            have hL : isLargeExisting gr r = false := by
              simp [isLargeExisting, hvl, hlg]
            have hM : isMediumExisting gr r = true := by
              simp only [isMediumExisting, decide_eq_true_eq]
              omega
            simp [tallyStep, hov, hov', hvl, hlg, hmd, hV, hL, hM, Tally.mk.injEq]
            omega
          · have hV : isVeryLargeExisting gr r = false := by
              simp [isVeryLargeExisting, hvl]
            have hL : isLargeExisting gr r = false := by
              simp [isLargeExisting, hvl, hlg]
            have hM : isMediumExisting gr r = false := by
              simp only [isMediumExisting, decide_eq_false_iff_not]
              intro hc
              exact hmd ⟨hc.2.2.1, hc.2.2.2⟩
            simp [tallyStep, hov, hov', hvl, hlg, hmd, hV, hL, hM, Tally.mk.injEq]
            omega
    · have hovB : overlapsWin rs re r = false := eq_false_of_ne_true hov
      have hov' : overlaps r.time (r.time + DWELL_MINUTES) rs re = false := hovB
      simp [tallyStep, hov', hovB]

theorem tallyConcurrent_spec (gr : GroupRules) (rs re : Nat) (l : List Reservation) :
    tallyConcurrent gr rs re l =
      { guests := ((l.filter (overlapsWin rs re)).map (fun r => r.party_size)).sum
        large := ((l.filter (overlapsWin rs re)).filter (isLargeExisting gr)).length
        veryLarge := ((l.filter (overlapsWin rs re)).filter (isVeryLargeExisting gr)).length
        medium := ((l.filter (overlapsWin rs re)).filter (isMediumExisting gr)).length } := by
  unfold tallyConcurrent
  rw [tally_foldl_spec]
  simp

theorem outdoorOverlapTotal_spec (rs re : Nat) (l : List Reservation) :
    outdoorOverlapTotal rs re l
      = ((l.filter (overlapsWin rs re)).map (fun r => r.party_size)).sum := by
  unfold outdoorOverlapTotal
  suffices h : ∀ acc : Nat, l.foldl (fun acc r =>
      if overlaps r.time (r.time + DWELL_MINUTES) rs re then acc + r.party_size else acc) acc
      = acc + ((l.filter (overlapsWin rs re)).map (fun r => r.party_size)).sum by
    simpa using h 0
  induction l with
  | nil => intro acc; simp
  | cons r t ih =>
    intro acc
    simp only [List.foldl_cons, List.filter_cons]
    by_cases hov : overlapsWin rs re r = true
    · have hov' : overlaps r.time (r.time + DWELL_MINUTES) rs re = true := hov
      simp [hov, hov', ih, Nat.add_assoc]
    · have hovB : overlapsWin rs re r = false := eq_false_of_ne_true hov
      have hov' : overlaps r.time (r.time + DWELL_MINUTES) rs re = false := hovB
      simp [hov', hovB, ih]

/- Which (field, code) pairs each check block can emit. -/

theorem party_size_errors_codes (c : Candidate) (e : Err)
    (he : e ∈ party_size_errors c) :
    e = (FormField.party_size, ReasonCode.partySizeIndoorCap)
      ∨ e = (FormField.party_size, ReasonCode.partySizeOutdoorCap) := by
  simp only [party_size_errors] at he
  repeat' split at he
  all_goals simp_all [List.mem_append]

theorem contact_errors_codes (c : Candidate) (e : Err)
    (he : e ∈ contact_errors c) :
    e = (FormField.email, ReasonCode.emailRequired)
      ∨ e = (FormField.phone, ReasonCode.phoneRequired) := by
  simp only [contact_errors] at he
  repeat' split at he
  all_goals simp_all [List.mem_append]

theorem past_date_errors_codes (env : Env) (c : Candidate) (e : Err)
    (he : e ∈ past_date_errors env c) :
    e = (FormField.date, ReasonCode.pastDate) := by
  simp only [past_date_errors] at he
  repeat' split at he
  all_goals simp_all

theorem opening_errors_codes (env : Env) (c : Candidate) (e : Err)
    (he : e ∈ opening_errors env c) :
    e = (FormField.date, ReasonCode.closedDay)
      ∨ e = (FormField.time, ReasonCode.timeOutside) := by
  simp only [opening_errors] at he
  repeat' split at he
  all_goals simp_all [List.mem_append]

theorem lead_time_errors_codes (env : Env) (c : Candidate) (e : Err)
    (he : e ∈ lead_time_errors env c) :
    e = (FormField.time, ReasonCode.leadTime) := by
  simp only [lead_time_errors] at he
  repeat' split at he
  all_goals simp_all

set_option maxHeartbeats 1600000 in
theorem capacity_tier_errors_codes (env : Env) (gr : GroupRules)
    (ic oc : Nat) (c : Candidate) (e : Err)
    (he : e ∈ capacity_tier_errors env gr ic oc c) :
    e = (FormField.time, ReasonCode.fullyBooked)
      ∨ e = (FormField.seating_preference, ReasonCode.suggestOutdoor)
      ∨ e = (FormField.time, ReasonCode.veryLargeCap)
      ∨ e = (FormField.time, ReasonCode.largeCapIndoor)
      ∨ e = (FormField.time, ReasonCode.mediumWithLarge)
      ∨ e = (FormField.time, ReasonCode.largeCapOutdoor) := by
  simp only [capacity_tier_errors] at he
  repeat' split at he
  all_goals simp_all [List.mem_append]
  all_goals tauto

theorem mem_clean_cases (env : Env) (c : Candidate) (e : Err)
    (he : e ∈ clean env c) :
    e ∈ party_size_errors c ∨ e ∈ contact_errors c ∨ e ∈ past_date_errors env c
      ∨ e = (FormField.date, ReasonCode.specialNotOpenYet)
      ∨ e ∈ opening_errors env c ∨ e ∈ lead_time_errors env c
      ∨ e ∈ capacity_tier_errors env (get_group_rules env.settings)
          (get_capacity_limits env.settings).1 (get_capacity_limits env.settings).2 c := by
  simp only [clean] at he
  split at he <;> simp only [List.mem_append, List.mem_singleton] at he <;> tauto

theorem clean_mem_of_pre (env : Env) (c : Candidate) (e : Err)
    (h : e ∈ party_size_errors c ∨ e ∈ contact_errors c ∨ e ∈ past_date_errors env c) :
    e ∈ clean env c := by
  simp only [clean]
  split <;> simp only [List.mem_append, List.mem_singleton] <;> tauto

theorem clean_mem_of_capacity (env : Env) (c : Candidate) (e : Err)
    (hsb : special_blocked env c = false)
    (h : e ∈ capacity_tier_errors env (get_group_rules env.settings)
          (get_capacity_limits env.settings).1 (get_capacity_limits env.settings).2 c) :
    e ∈ clean env c := by
  simp only [clean, hsb, Bool.false_eq_true, if_false]
  simp only [List.mem_append]
  tauto

theorem clean_not_blocked_eq (env : Env) (c : Candidate)
    (hsb : special_blocked env c = false) :
    clean env c = party_size_errors c ++ contact_errors c ++ past_date_errors env c
      ++ opening_errors env c ++ lead_time_errors env c
      ++ capacity_tier_errors env (get_group_rules env.settings)
          (get_capacity_limits env.settings).1 (get_capacity_limits env.settings).2 c := by
  simp only [clean, hsb, Bool.false_eq_true, if_false]

/-- C2: the shared overlap predicate `overlaps` (the one interval test used
by the admission-control tally, the suggest-outdoor loop, the capacity
timeline and the table-conflict computation) holds of two same-date dwell
windows exactly when each starts strictly before the other ends; windows
that merely touch (one ends the minute the other starts, in either order)
never count as concurrent, and an existing reservation whose window ends
exactly at the candidate start is skipped both by the admission tally step
and by the blocked-table computation. -/
theorem overlaps_strict_halfopen (d s1 s2 : Nat) :
    (overlaps s1 (s1 + d) s2 (s2 + d) = true ↔ s1 < s2 + d ∧ s2 < s1 + d)
      ∧ overlaps s1 (s1 + d) (s1 + d) (s1 + d + d) = false
      ∧ overlaps (s2 + d) (s2 + d + d) s2 (s2 + d) = false
      ∧ (∀ (gr : GroupRules) (acc : Tally) (r : Reservation),
          tallyStep gr (r.time + DWELL_MINUTES) (r.time + DWELL_MINUTES + DWELL_MINUTES) acc r
            = acc)
      ∧ (∀ (r : Reservation) (selfPk dwell : Nat),
          get_blocked_table_ids [r] selfPk (some r.date) (some (r.time + dwell)) dwell = []) := by
  refine ⟨?_, ?_, ?_, ?_, ?_⟩
  · simp [overlaps]
  · simp [overlaps]
  · simp [overlaps]
  · intro gr acc r
    have hov : overlaps r.time (r.time + DWELL_MINUTES) (r.time + DWELL_MINUTES)
        (r.time + DWELL_MINUTES + DWELL_MINUTES) = false := by
      simp [overlaps]
    simp [tallyStep, hov]
  · intro r selfPk dwell
    have hov : overlaps r.time (r.time + dwell) (r.time + dwell)
        (r.time + dwell + dwell) = false := by
      simp [overlaps]
    simp only [get_blocked_table_ids, List.filter_singleton, Bool.cond_eq_if]
    split
    · simp [hov]
    · simp

/-- C10: the blocked-tables computation returns the empty set whenever the
subject reservation is missing its date or its time; it never fails and can
report a conflict only for a reservation carrying both. -/
theorem blocked_tables_missing_date_time_empty (db : List Reservation)
    (selfPk : Nat) (rdate rtime : Option Nat) (dwell : Nat)
    (h : rdate = none ∨ rtime = none) :
    get_blocked_table_ids db selfPk rdate rtime dwell = [] := by
  rcases h with h | h
  · subst h
    cases rtime <;> rfl
  · subst h
    cases rdate <;> rfl

/-- C10 witness: a reservation with a time but no date yields no blocked
tables even when an overlapping reservation holds a table. -/
theorem blocked_tables_missing_date_time_empty_witness :
    get_blocked_table_ids [resOtherC9] 1 none (some 720) 90 = [] :=
  blocked_tables_missing_date_time_empty [resOtherC9] 1 none (some 720) 90 (Or.inl rfl)

/-- C7: when a SpecialOpeningDay row exists for the candidate date and today
precedes its bookings_open_from, clean emits the date-attributed
not-open-yet reason right after the party-size, contact and past-date
checks and stops: the opening-hours, lead-time, capacity and tier checks
never run, so no reason beyond those of the three early checks and the
not-open-yet reason itself can appear. -/
theorem special_day_window_early_stop (env : Env) (c : Candidate) (d : Nat)
    (sp : SpecialOpeningDay)
    (hd : c.date = some d)
    (hsp : env.specialDays.find? (fun s => s.date == d) = some sp)
    (hw : env.today < sp.bookings_open_from) :
    clean env c = party_size_errors c ++ contact_errors c ++ past_date_errors env c
        ++ [(FormField.date, ReasonCode.specialNotOpenYet)]
      ∧ ∀ e ∈ clean env c,
          e.2 = ReasonCode.specialNotOpenYet ∨ e.2 = ReasonCode.partySizeIndoorCap
            ∨ e.2 = ReasonCode.partySizeOutdoorCap ∨ e.2 = ReasonCode.emailRequired
            ∨ e.2 = ReasonCode.phoneRequired ∨ e.2 = ReasonCode.pastDate := by
  have hsb : special_blocked env c = true := by
    simp [special_blocked, hd, hsp, hw]
  have h1 : clean env c = party_size_errors c ++ contact_errors c
      ++ past_date_errors env c ++ [(FormField.date, ReasonCode.specialNotOpenYet)] := by
    simp only [clean, hsb, if_true]
  refine ⟨h1, ?_⟩
  intro e he
  rw [h1] at he
  simp only [List.mem_append, List.mem_singleton] at he
  rcases he with ((h2 | h2) | h2) | h2
  · rcases party_size_errors_codes c e h2 with h3 | h3 <;> rw [h3] <;> tauto
  · rcases contact_errors_codes c e h2 with h3 | h3 <;> rw [h3] <;> tauto
  · rw [past_date_errors_codes env c e h2]
    tauto
  · rw [h2]
    tauto

/-- C7 witness: on 350, with a special day on 300 whose bookings open at
400, the candidate for 300 receives exactly the single not-open-yet date
reason. -/
theorem special_day_window_early_stop_witness :
    clean envC7 candC7 = [(FormField.date, ReasonCode.specialNotOpenYet)] := by
  have h := special_day_window_early_stop envC7 candC7 300 spC7 rfl rfl (by decide)
  rw [h.1]
  rfl

theorem mem_ite_singleton {A : Type} (x a : A) (c : Prop) [Decidable c] :
    x ∈ (if c then [a] else []) ↔ c ∧ x = a := by
  split <;> simp_all

theorem mem_clean_party_code (env : Env) (c : Candidate) (e : Err)
    (hc : e.2 = ReasonCode.partySizeIndoorCap ∨ e.2 = ReasonCode.partySizeOutdoorCap) :
    e ∈ clean env c ↔ e ∈ party_size_errors c := by
  constructor
  · intro h
    rcases mem_clean_cases env c e h with h1 | h1 | h1 | h1 | h1 | h1 | h1
    · exact h1
    · exfalso
      rcases contact_errors_codes c e h1 with h2 | h2 <;> subst h2 <;> simp_all
    · exfalso
      have h2 := past_date_errors_codes env c e h1
      subst h2
      simp_all
    · exfalso
      subst h1
      simp_all
    · exfalso
      rcases opening_errors_codes env c e h1 with h2 | h2 <;> subst h2 <;> simp_all
    · exfalso
      have h2 := lead_time_errors_codes env c e h1
      subst h2
      simp_all
    · exfalso
      rcases capacity_tier_errors_codes env _ _ _ c e h1 with h2 | h2 | h2 | h2 | h2 | h2
        <;> subst h2 <;> simp_all
  · intro h
    exact clean_mem_of_pre env c e (Or.inl h)

theorem party_size_errors_indoor_iff (c : Candidate) (p : Nat)
    (hp : c.party_size = some p) :
    ((FormField.party_size, ReasonCode.partySizeIndoorCap) ∈ party_size_errors c)
      ↔ MAX_PARTY_SIZE < p := by
  simp only [party_size_errors, hp]
  by_cases h0 : p = 0
  · subst h0
    simp [MAX_PARTY_SIZE]
  · rw [if_neg h0]
    simp [List.mem_append, mem_ite_singleton, Prod.ext_iff]

theorem party_size_errors_outdoor_iff (c : Candidate) (p : Nat)
    (hp : c.party_size = some p) :
    ((FormField.party_size, ReasonCode.partySizeOutdoorCap) ∈ party_size_errors c)
      ↔ c.seating_preference = some SeatingPreference.outdoorIfPossible
        ∧ OUTDOOR_MAX_PARTY_SIZE < p := by
  simp only [party_size_errors, hp]
  by_cases h0 : p = 0
  · subst h0
    simp [OUTDOOR_MAX_PARTY_SIZE]
  · rw [if_neg h0]
    simp [List.mem_append, mem_ite_singleton, Prod.ext_iff, any_outdoor_eq]

/-- C4 counterexample: with the configured indoor party cap lowered to 5,
the claim demands a party-size rejection for a party of 6, but clean
accepts the candidate outright: the configured max_party_size fields are
never consulted. -/
theorem party_cap_configured_counterexample :
    envC4.settings = some settingsC4
      ∧ settingsC4.max_party_size_indoor < 6
      ∧ candC4.party_size = some 6
      ∧ clean envC4 candC4 = [] := by
  refine ⟨rfl, by decide, rfl, by decide⟩

/-- C4 (amended): clean rejects on party size exactly when the party
exceeds the fixed built-in indoor cap of 12 (whatever the preference), and
additionally exactly when the preference is OutdoorIfPossible and the party
exceeds the fixed built-in outdoor cap of 8; the configured
max_party_size_indoor and max_party_size_outdoor play no part. -/
theorem party_cap_builtin_limits (env : Env) (c : Candidate) (p : Nat)
    (hp : c.party_size = some p) :
    (((FormField.party_size, ReasonCode.partySizeIndoorCap) ∈ clean env c)
        ↔ MAX_PARTY_SIZE < p)
      ∧ (((FormField.party_size, ReasonCode.partySizeOutdoorCap) ∈ clean env c)
          ↔ c.seating_preference = some SeatingPreference.outdoorIfPossible
            ∧ OUTDOOR_MAX_PARTY_SIZE < p) := by
  constructor
  · rw [mem_clean_party_code env c _ (Or.inl rfl)]
    exact party_size_errors_indoor_iff c p hp
  · rw [mem_clean_party_code env c _ (Or.inr rfl)]
    exact party_size_errors_outdoor_iff c p hp

/-- C4 witness: a party of 13 triggers the built-in indoor cap reason in
the concrete environment. -/
theorem party_cap_builtin_limits_witness :
    (FormField.party_size, ReasonCode.partySizeIndoorCap) ∈ clean envC4 candC4w := by
  have h := party_cap_builtin_limits envC4 candC4w 13 rfl
  exact h.1.mpr (by decide)

/-- C5 (code bug): the clean opening-hours check consults only the weekday
row. Here the weekday row is closed while the SpecialOpeningDay for the
date is open, already bookable today, and carries its own hours that cover
the requested time; the claim says the special day supersedes the weekday
rule, yet clean rejects with the closed-day reason. -/
theorem special_day_hours_ignored :
    envC5.specialDays.find? (fun sp => sp.date == 200) = some spC5
      ∧ spC5.is_open = true
      ∧ spC5.bookings_open_from ≤ envC5.today
      ∧ spC5.open_time = some 600
      ∧ spC5.close_time = some 1320
      ∧ candC5.time = some 720
      ∧ clean envC5 candC5 = [(FormField.date, ReasonCode.closedDay)] := by
  refine ⟨rfl, rfl, by decide, rfl, rfl, rfl, by decide⟩

/-- C6 counterexample: the tier boundaries 10..2 / 1 / 0 violate the
monotonicity invariant, yet the engine evaluates the candidate and returns
an ordinary admission decision (here an acceptance with no reasons), not a
configuration fault. -/
theorem config_monotonicity_counterexample :
    ¬ tierBoundariesMonotonic settingsC6
      ∧ envC6.settings = some settingsC6
      ∧ clean envC6 candC6 = [] := by
  refine ⟨by decide, rfl, by decide⟩

/-- C6 (amended): the engine never validates the tier boundaries: for every
environment (monotonic or not) and candidate, evaluation produces an
ordinary reason list in which a configuration-fault code never appears. -/
theorem no_config_fault_ever (env : Env) (c : Candidate) :
    (clean env c).all (fun e => !(e.2 == ReasonCode.configFault)) = true := by
  rw [List.all_eq_true]
  intro e he
  rcases mem_clean_cases env c e he with h1 | h1 | h1 | h1 | h1 | h1 | h1
  · rcases party_size_errors_codes c e h1 with h2 | h2 <;> subst h2 <;> rfl
  · rcases contact_errors_codes c e h1 with h2 | h2 <;> subst h2 <;> rfl
  · have h2 := past_date_errors_codes env c e h1
    subst h2
    rfl
  · subst h1
    rfl
  · rcases opening_errors_codes env c e h1 with h2 | h2 <;> subst h2 <;> rfl
  · have h2 := lead_time_errors_codes env c e h1
    subst h2
    rfl
  · rcases capacity_tier_errors_codes env _ _ _ c e h1 with h2 | h2 | h2 | h2 | h2 | h2
      <;> subst h2 <;> rfl

/-- C9 counterexample: table 1 is both already assigned to the reservation
and blocked (an overlapping active reservation also holds it); the claim
demands that this idempotent re-assignment succeed, but staff_update_tables
rejects it as already in use: there is no assigned-to-self exemption in the
conflict check. -/
theorem assign_table_already_assigned_counterexample :
    1 ∈ resSelfC9.tables
      ∧ 1 ∈ get_blocked_table_ids [resOtherC9] resSelfC9.pk (some resSelfC9.date)
          (some resSelfC9.time) 90
      ∧ staff_update_tables [resOtherC9] resSelfC9 90 [1] (some 1)
          = AssignResult.rejectedAlreadyInUse := by
  refine ⟨by decide, by decide, by decide⟩

/-- C9 (amended): clearing always succeeds; an active requested table is
rejected exactly when it lies in the blocked set, which itself already
excludes the reservation's own overlap contribution but grants no exemption
to a table already assigned to this reservation; on acceptance the table
set becomes exactly the single requested table, and assigning the same
table again to the updated reservation succeeds with the same single-table
result. -/
theorem assign_table_rules (db : List Reservation) (rv : Reservation)
    (dwell : Nat) (act : List Nat) (tid : Nat)
    (hact : act.contains tid = true) :
    staff_update_tables db rv dwell act none
        = AssignResult.cleared { rv with tables := [] }
      ∧ (staff_update_tables db rv dwell act (some tid)
            = AssignResult.rejectedAlreadyInUse
          ↔ tid ∈ get_blocked_table_ids db rv.pk (some rv.date) (some rv.time) dwell)
      ∧ (tid ∉ get_blocked_table_ids db rv.pk (some rv.date) (some rv.time) dwell →
          staff_update_tables db rv dwell act (some tid)
              = AssignResult.assigned { rv with tables := [tid] }
            ∧ staff_update_tables db { rv with tables := [tid] } dwell act (some tid)
              = AssignResult.assigned { rv with tables := [tid] }) := by
  have hactm : tid ∈ act := List.elem_iff.mp hact
  refine ⟨rfl, ?_, ?_⟩
  · simp only [staff_update_tables]
    by_cases hb : tid ∈ get_blocked_table_ids db rv.pk (some rv.date) (some rv.time) dwell
    · simp [hactm, hb]
    · simp [hactm, hb]
  · intro hnb
    constructor
    · simp [staff_update_tables, hactm, hnb]
    · simp [staff_update_tables, hactm, hnb]

/-- C9 witness: assigning a free active table, then assigning it again to
the updated reservation, succeeds both times and leaves exactly that one
table attached. -/
theorem assign_table_rules_witness :
    staff_update_tables [resOtherC9] resSelfC9 90 [1, 2] (some 2)
        = AssignResult.assigned { resSelfC9 with tables := [2] }
      ∧ staff_update_tables [resOtherC9] { resSelfC9 with tables := [2] } 90 [1, 2] (some 2)
        = AssignResult.assigned { resSelfC9 with tables := [2] } := by
  have h := assign_table_rules [resOtherC9] resSelfC9 90 [1, 2] 2 (by decide)
  exact h.2.2 (by decide)

theorem capacity_tier_over_eq (env : Env) (gr : GroupRules) (ic oc : Nat)
    (c : Candidate) (d t p : Nat)
    (hd : c.date = some d) (ht : c.time = some t) (hp : c.party_size = some p)
    (hp0 : p ≠ 0)
    (hcap : zoneOverlapLoad env.reservations d (zonePrefsOf c.seating_preference) t + p
        > (if c.seating_preference = some SeatingPreference.outdoorIfPossible then oc else ic)) :
    capacity_tier_errors env gr ic oc c =
      if c.seating_preference = some SeatingPreference.noPreference
          ∧ zoneOverlapLoad env.reservations d OUTDOOR_PREFERENCES t + p ≤ oc
        then [(FormField.seating_preference, ReasonCode.suggestOutdoor)]
        else [(FormField.time, ReasonCode.fullyBooked)] := by
  simp only [capacity_tier_errors, hd, ht, hp]
  rw [if_neg hp0]
  by_cases hpref : c.seating_preference = some SeatingPreference.outdoorIfPossible
  · have hoz : OUTDOOR_PREFERENCES.any (fun z => c.seating_preference == some z) = true := by
      simp [OUTDOOR_PREFERENCES, hpref]
    rw [if_pos hpref] at hcap
    simp only [zonePrefsOf, if_pos hpref] at hcap
    have hg : (tallyConcurrent gr t (t + DWELL_MINUTES)
        (activeSameDatePrefs env.reservations d OUTDOOR_PREFERENCES)).guests
        = zoneOverlapLoad env.reservations d OUTDOOR_PREFERENCES t := by
      rw [tallyConcurrent_spec]
      simp [zoneOverlapLoad, overlappingZone]
    simp only [hoz, if_true, Bool.not_true, Bool.false_and, Bool.false_eq_true, if_false]
    rw [hg, if_pos hcap]
    have hnp : ¬ (c.seating_preference = some SeatingPreference.noPreference
        ∧ zoneOverlapLoad env.reservations d OUTDOOR_PREFERENCES t + p ≤ oc) := by
      intro hx
      rw [hpref] at hx
      cases hx.1
    rw [if_neg hnp]
  · have hoz : OUTDOOR_PREFERENCES.any (fun z => c.seating_preference == some z) = false := by
      simp [any_outdoor_eq, hpref]
    rw [if_neg hpref] at hcap
    simp only [zonePrefsOf, if_neg hpref] at hcap
    have hg : (tallyConcurrent gr t (t + DWELL_MINUTES)
        (activeSameDatePrefs env.reservations d INDOOR_PREFERENCES)).guests
        = zoneOverlapLoad env.reservations d INDOOR_PREFERENCES t := by
      rw [tallyConcurrent_spec]
      simp [zoneOverlapLoad, overlappingZone]
    have hgo : outdoorOverlapTotal t (t + DWELL_MINUTES)
        (activeSameDatePrefs env.reservations d OUTDOOR_PREFERENCES)
        = zoneOverlapLoad env.reservations d OUTDOOR_PREFERENCES t := by
      rw [outdoorOverlapTotal_spec]
      simp [zoneOverlapLoad, overlappingZone]
    simp only [hoz, Bool.false_eq_true, if_false, Bool.not_false, Bool.true_and]
    rw [hg, if_pos hcap, hgo]
    by_cases hnp : c.seating_preference == some SeatingPreference.noPreference
    · simp only [hnp, if_true]
      have hnp2 : c.seating_preference = some SeatingPreference.noPreference :=
        beq_iff_eq.mp hnp
      by_cases hout : zoneOverlapLoad env.reservations d OUTDOOR_PREFERENCES t + p ≤ oc
      · rw [if_pos hout, if_pos ⟨hnp2, hout⟩]
      · rw [if_neg hout, if_neg (fun hx => hout hx.2)]
    · simp only [hnp, Bool.false_eq_true, if_false]
      have hnp2 : ¬ c.seating_preference = some SeatingPreference.noPreference := by
        intro hx
        exact absurd (beq_iff_eq.mpr hx) hnp
      rw [if_neg (fun hx => hnp2 hx.1)]

theorem mem_ite_nested_singleton {A : Type} (x a : A) (c1 c2 : Prop)
    [Decidable c1] [Decidable c2] :
    x ∈ (if c1 then (if c2 then [a] else []) else []) ↔ c1 ∧ c2 ∧ x = a := by
  split
  · rw [mem_ite_singleton]
    tauto
  · simp_all

theorem capacity_tier_under_codes (env : Env) (gr : GroupRules) (ic oc : Nat)
    (c : Candidate) (d t p : Nat)
    (hd : c.date = some d) (ht : c.time = some t) (hp : c.party_size = some p)
    (hp0 : p ≠ 0)
    (hcap : zoneOverlapLoad env.reservations d (zonePrefsOf c.seating_preference) t + p
        ≤ (if c.seating_preference = some SeatingPreference.outdoorIfPossible then oc else ic))
    (e : Err) (he : e ∈ capacity_tier_errors env gr ic oc c) :
    e = (FormField.time, ReasonCode.veryLargeCap)
      ∨ e = (FormField.time, ReasonCode.largeCapIndoor)
      ∨ e = (FormField.time, ReasonCode.mediumWithLarge)
      ∨ e = (FormField.time, ReasonCode.largeCapOutdoor) := by
  simp only [capacity_tier_errors, hd, ht, hp] at he
  rw [if_neg hp0] at he
  by_cases hpref : c.seating_preference = some SeatingPreference.outdoorIfPossible
  · have hoz : OUTDOOR_PREFERENCES.any (fun z => c.seating_preference == some z) = true := by
      simp [OUTDOOR_PREFERENCES, hpref]
    rw [if_pos hpref] at hcap
    simp only [zonePrefsOf, if_pos hpref] at hcap
    have hg : (tallyConcurrent gr t (t + DWELL_MINUTES)
        (activeSameDatePrefs env.reservations d OUTDOOR_PREFERENCES)).guests
        = zoneOverlapLoad env.reservations d OUTDOOR_PREFERENCES t := by
      rw [tallyConcurrent_spec]
      simp [zoneOverlapLoad, overlappingZone]
    simp only [hoz, if_true, Bool.not_true, Bool.false_eq_true, if_false] at he
    rw [hg, if_neg (by omega)] at he
    rw [mem_ite_singleton] at he
    tauto
  · have hoz : OUTDOOR_PREFERENCES.any (fun z => c.seating_preference == some z) = false := by
      simp [any_outdoor_eq, hpref]
    rw [if_neg hpref] at hcap
    simp only [zonePrefsOf, if_neg hpref] at hcap
    have hg : (tallyConcurrent gr t (t + DWELL_MINUTES)
        (activeSameDatePrefs env.reservations d INDOOR_PREFERENCES)).guests
        = zoneOverlapLoad env.reservations d INDOOR_PREFERENCES t := by
      rw [tallyConcurrent_spec]
      simp [zoneOverlapLoad, overlappingZone]
    simp only [hoz, Bool.false_eq_true, if_false, Bool.not_false, if_true] at he
    rw [hg, if_neg (by omega)] at he
    simp only [List.mem_append, mem_ite_singleton, mem_ite_nested_singleton] at he
    tauto

/-- C1: with date, time and a nonzero party size present and the
special-day gate not triggered, clean classifies the candidate's zone from
its preference (OutdoorIfPossible outdoor, everything else indoor), sums
party sizes of the overlapping same-zone active reservations, and rejects
on capacity exactly when that sum plus the candidate's party size exceeds
the zone capacity. An over-capacity evaluation ends with exactly one
capacity reason: the seating-preference-attributed suggest-outdoor variant
when the preference is explicitly NoPreference and the outdoor overlapping
load still leaves room for the party outdoors, the time-attributed
fully-booked reason otherwise; either way no tier reason follows. Within
capacity, neither capacity reason can appear anywhere in the result. -/
theorem clean_zone_capacity_and_suggest_outdoor (env : Env) (c : Candidate)
    (d t p : Nat)
    (hd : c.date = some d) (ht : c.time = some t) (hp : c.party_size = some p)
    (hp0 : p ≠ 0) (hsb : special_blocked env c = false) :
    (zoneOverlapLoad env.reservations d (zonePrefsOf c.seating_preference) t + p
        > zoneCapacityOf env.settings c.seating_preference →
      clean env c = party_size_errors c ++ contact_errors c ++ past_date_errors env c
        ++ opening_errors env c ++ lead_time_errors env c
        ++ (if c.seating_preference = some SeatingPreference.noPreference
              ∧ zoneOverlapLoad env.reservations d OUTDOOR_PREFERENCES t + p
                  ≤ (get_capacity_limits env.settings).2
            then [(FormField.seating_preference, ReasonCode.suggestOutdoor)]
            else [(FormField.time, ReasonCode.fullyBooked)]))
      ∧ (zoneOverlapLoad env.reservations d (zonePrefsOf c.seating_preference) t + p
          ≤ zoneCapacityOf env.settings c.seating_preference →
        ∀ f : FormField, (f, ReasonCode.fullyBooked) ∉ clean env c
          ∧ (f, ReasonCode.suggestOutdoor) ∉ clean env c) := by
  constructor
  · intro hover
    have hc : zoneOverlapLoad env.reservations d (zonePrefsOf c.seating_preference) t + p
        > (if c.seating_preference = some SeatingPreference.outdoorIfPossible
            then (get_capacity_limits env.settings).2
            else (get_capacity_limits env.settings).1) := by
      simpa [zoneCapacityOf] using hover
    rw [clean_not_blocked_eq env c hsb,
      capacity_tier_over_eq env (get_group_rules env.settings)
        (get_capacity_limits env.settings).1 (get_capacity_limits env.settings).2 c d t p
        hd ht hp hp0 hc]
  · intro hunder f
    have hc : zoneOverlapLoad env.reservations d (zonePrefsOf c.seating_preference) t + p
        ≤ (if c.seating_preference = some SeatingPreference.outdoorIfPossible
            then (get_capacity_limits env.settings).2
            else (get_capacity_limits env.settings).1) := by
      simpa [zoneCapacityOf] using hunder
    constructor <;> intro hmem
    · rcases mem_clean_cases env c _ hmem with h1 | h1 | h1 | h1 | h1 | h1 | h1
      · rcases party_size_errors_codes c _ h1 with h2 | h2 <;> simp at h2
      · rcases contact_errors_codes c _ h1 with h2 | h2 <;> simp at h2
      · have h2 := past_date_errors_codes env c _ h1
        simp at h2
      · simp at h1
      · rcases opening_errors_codes env c _ h1 with h2 | h2 <;> simp at h2
      · have h2 := lead_time_errors_codes env c _ h1
        simp at h2
      · rcases capacity_tier_under_codes env (get_group_rules env.settings)
            (get_capacity_limits env.settings).1 (get_capacity_limits env.settings).2
            c d t p hd ht hp hp0 hc _ h1 with h2 | h2 | h2 | h2 <;> simp at h2
    · rcases mem_clean_cases env c _ hmem with h1 | h1 | h1 | h1 | h1 | h1 | h1
      · rcases party_size_errors_codes c _ h1 with h2 | h2 <;> simp at h2
      · rcases contact_errors_codes c _ h1 with h2 | h2 <;> simp at h2
      · have h2 := past_date_errors_codes env c _ h1
        simp at h2
      · simp at h1
      · rcases opening_errors_codes env c _ h1 with h2 | h2 <;> simp at h2
      · have h2 := lead_time_errors_codes env c _ h1
        simp at h2
      · rcases capacity_tier_under_codes env (get_group_rules env.settings)
            (get_capacity_limits env.settings).1 (get_capacity_limits env.settings).2
            c d t p hd ht hp hp0 hc _ h1 with h2 | h2 | h2 | h2 <;> simp at h2

/-- C1 witness: a 40-guest indoor booking and a 5-guest NoPreference
candidate overflow the default 42 indoor seats while outdoor is empty, so
the evaluation yields exactly the suggest-outdoor reason on the seating
preference field. -/
theorem clean_zone_capacity_witness :
    clean envC1 candC1 = [(FormField.seating_preference, ReasonCode.suggestOutdoor)] := by
  have h := (clean_zone_capacity_and_suggest_outdoor envC1 candC1 10 780 5
    rfl rfl rfl (by decide) rfl).1 (by decide)
  rw [h]
  rfl

theorem mem_clean_capacity_code (env : Env) (c : Candidate) (e : Err)
    (hsb : special_blocked env c = false)
    (hc : e.2 = ReasonCode.veryLargeCap ∨ e.2 = ReasonCode.largeCapIndoor
      ∨ e.2 = ReasonCode.mediumWithLarge ∨ e.2 = ReasonCode.largeCapOutdoor
      ∨ e.2 = ReasonCode.fullyBooked ∨ e.2 = ReasonCode.suggestOutdoor) :
    e ∈ clean env c ↔ e ∈ capacity_tier_errors env (get_group_rules env.settings)
        (get_capacity_limits env.settings).1 (get_capacity_limits env.settings).2 c := by
  constructor
  · intro h
    rcases mem_clean_cases env c e h with h1 | h1 | h1 | h1 | h1 | h1 | h1
    · exfalso
      rcases party_size_errors_codes c e h1 with h2 | h2 <;> subst h2 <;> simp_all
    · exfalso
      rcases contact_errors_codes c e h1 with h2 | h2 <;> subst h2 <;> simp_all
    · exfalso
      have h2 := past_date_errors_codes env c e h1
      subst h2
      simp_all
    · exfalso
      subst h1
      simp_all
    · exfalso
      rcases opening_errors_codes env c e h1 with h2 | h2 <;> subst h2 <;> simp_all
    · exfalso
      have h2 := lead_time_errors_codes env c e h1
      subst h2
      simp_all
    · exact h1
  · intro h
    exact clean_mem_of_capacity env c e hsb h

theorem capacity_tier_under_indoor_eq (env : Env) (gr : GroupRules) (ic oc : Nat)
    (c : Candidate) (d t p : Nat)
    (hd : c.date = some d) (ht : c.time = some t) (hp : c.party_size = some p)
    (hp0 : p ≠ 0)
    (hz : c.seating_preference ≠ some SeatingPreference.outdoorIfPossible)
    (hcap : zoneOverlapLoad env.reservations d INDOOR_PREFERENCES t + p ≤ ic) :
    capacity_tier_errors env gr ic oc c =
      (if VERY_LARGE_PARTY_THRESHOLD ≤ p
          ∧ veryLargeOverlapCount gr env.reservations d INDOOR_PREFERENCES t ≥ 1
        then [(FormField.time, ReasonCode.veryLargeCap)] else [])
      ++ (if LARGE_PARTY_THRESHOLD ≤ p
            ∧ largeOverlapCount gr env.reservations d INDOOR_PREFERENCES t + 1
              > MAX_LARGE_GROUPS_SIMULTANEOUS
          then [(FormField.time, ReasonCode.largeCapIndoor)] else [])
      ++ (if (if LARGE_PARTY_THRESHOLD ≤ p
                then largeOverlapCount gr env.reservations d INDOOR_PREFERENCES t + 1
                else largeOverlapCount gr env.reservations d INDOOR_PREFERENCES t) ≥ 2
          then (if (if MEDIUM_PARTY_MIN ≤ p ∧ p ≤ MEDIUM_PARTY_MAX
                    then mediumOverlapCount gr env.reservations d INDOOR_PREFERENCES t + 1
                    else mediumOverlapCount gr env.reservations d INDOOR_PREFERENCES t) > 1
                then [(FormField.time, ReasonCode.mediumWithLarge)] else [])
          else []) := by
  simp only [capacity_tier_errors, hd, ht, hp]
  rw [if_neg hp0]
  have hoz : OUTDOOR_PREFERENCES.any (fun z => c.seating_preference == some z) = false := by
    simp [any_outdoor_eq, hz]
  simp only [hoz, Bool.false_eq_true, if_false, Bool.not_false, if_true]
  have hg : (tallyConcurrent gr t (t + DWELL_MINUTES)
      (activeSameDatePrefs env.reservations d INDOOR_PREFERENCES)).guests
      = zoneOverlapLoad env.reservations d INDOOR_PREFERENCES t := by
    rw [tallyConcurrent_spec]
    rfl
  have hV : (tallyConcurrent gr t (t + DWELL_MINUTES)
      (activeSameDatePrefs env.reservations d INDOOR_PREFERENCES)).veryLarge
      = veryLargeOverlapCount gr env.reservations d INDOOR_PREFERENCES t := by
    rw [tallyConcurrent_spec]
    rfl
  have hL : (tallyConcurrent gr t (t + DWELL_MINUTES)
      (activeSameDatePrefs env.reservations d INDOOR_PREFERENCES)).large
      = largeOverlapCount gr env.reservations d INDOOR_PREFERENCES t := by
    rw [tallyConcurrent_spec]
    rfl
  have hM : (tallyConcurrent gr t (t + DWELL_MINUTES)
      (activeSameDatePrefs env.reservations d INDOOR_PREFERENCES)).medium
      = mediumOverlapCount gr env.reservations d INDOOR_PREFERENCES t := by
    rw [tallyConcurrent_spec]
    rfl
  rw [hg, hV, hL, hM, if_neg (by omega)]

/-- C3 counterexample: with configured thresholds medium 3..4, large at 5,
very large at 6 and configured cap max_large_indoor = 2, two overlapping
size-5 indoor groups already exist and the size-5 candidate is itself large
by the configured threshold, so the claim demands rejection (2 + 1 exceeds
the cap of 2); clean nevertheless accepts with no reasons at all, because
the candidate is classified by the built-in thresholds (large only from 7)
and the cap compared is the built-in one. -/
theorem tier_configured_thresholds_counterexample :
    (get_group_rules envC3.settings).large_min ≤ 5
      ∧ largeOverlapCount (get_group_rules envC3.settings) envC3.reservations 10
          INDOOR_PREFERENCES 720 = 2
      ∧ (get_group_rules envC3.settings).max_large_indoor < 2 + 1
      ∧ candC3.party_size = some 5
      ∧ clean envC3 candC3 = [] := by
  refine ⟨by decide, by decide, by decide, rfl, by decide⟩

/-- C3 (amended): for an indoor-zone candidate that passed the seat-capacity
gate, the tier stage classifies the overlapping existing reservations by the
configured thresholds but classifies the candidate by the built-in constants
and compares against the built-in caps: the very-large rule fires iff the
candidate has at least 9 guests and at least one overlapping
configured-very-large group exists; the large rule fires iff the candidate
has at least 7 guests and the configured-large count plus one exceeds the
built-in cap of 2; the medium rule fires iff the large count (plus one when
the candidate has at least 7 guests) reaches 2 and the configured-medium
count (plus one when the candidate has 5 to 6 guests) exceeds 1. The
configured max_large_indoor and max_very_large_indoor caps play no part. -/
theorem tier_rules_builtin_candidate_thresholds (env : Env) (c : Candidate)
    (d t p : Nat)
    (hd : c.date = some d) (ht : c.time = some t) (hp : c.party_size = some p)
    (hp0 : p ≠ 0) (hsb : special_blocked env c = false)
    (hz : c.seating_preference ≠ some SeatingPreference.outdoorIfPossible)
    (hcap : zoneOverlapLoad env.reservations d INDOOR_PREFERENCES t + p
        ≤ (get_capacity_limits env.settings).1) :
    (((FormField.time, ReasonCode.veryLargeCap) ∈ clean env c)
        ↔ VERY_LARGE_PARTY_THRESHOLD ≤ p
          ∧ veryLargeOverlapCount (get_group_rules env.settings) env.reservations d
              INDOOR_PREFERENCES t ≥ 1)
      ∧ (((FormField.time, ReasonCode.largeCapIndoor) ∈ clean env c)
        ↔ LARGE_PARTY_THRESHOLD ≤ p
          ∧ largeOverlapCount (get_group_rules env.settings) env.reservations d
              INDOOR_PREFERENCES t + 1 > MAX_LARGE_GROUPS_SIMULTANEOUS)
      ∧ (((FormField.time, ReasonCode.mediumWithLarge) ∈ clean env c)
        ↔ (if LARGE_PARTY_THRESHOLD ≤ p
            then largeOverlapCount (get_group_rules env.settings) env.reservations d
                INDOOR_PREFERENCES t + 1
            else largeOverlapCount (get_group_rules env.settings) env.reservations d
                INDOOR_PREFERENCES t) ≥ 2
          ∧ (if MEDIUM_PARTY_MIN ≤ p ∧ p ≤ MEDIUM_PARTY_MAX
            then mediumOverlapCount (get_group_rules env.settings) env.reservations d
                INDOOR_PREFERENCES t + 1
            else mediumOverlapCount (get_group_rules env.settings) env.reservations d
                INDOOR_PREFERENCES t) > 1) := by
  have heq := capacity_tier_under_indoor_eq env (get_group_rules env.settings)
    (get_capacity_limits env.settings).1 (get_capacity_limits env.settings).2 c d t p
    hd ht hp hp0 hz hcap
  refine ⟨?_, ?_, ?_⟩
  · rw [mem_clean_capacity_code env c _ hsb (Or.inl rfl), heq]
    simp [List.mem_append, mem_ite_singleton, mem_ite_nested_singleton, Prod.ext_iff]
  · rw [mem_clean_capacity_code env c _ hsb (Or.inr (Or.inl rfl)), heq]
    simp [List.mem_append, mem_ite_singleton, mem_ite_nested_singleton, Prod.ext_iff]
  · rw [mem_clean_capacity_code env c _ hsb (Or.inr (Or.inr (Or.inl rfl))), heq]
    simp [List.mem_append, mem_ite_singleton, mem_ite_nested_singleton, Prod.ext_iff]

/-- C3 witness: with the default rules (very large from 9, cap one such
group) and one overlapping nine-guest group on the books, a nine-guest
candidate receives the very-large tier rejection. -/
theorem tier_rules_builtin_witness :
    (FormField.time, ReasonCode.veryLargeCap) ∈ clean envC3w candC3w := by
  have h := tier_rules_builtin_candidate_thresholds envC3w candC3w 10 720 9
    rfl rfl rfl (by decide) rfl (by decide) (by decide)
  exact h.1.mpr (by decide)

theorem hourMax_ub (tbs : List TimeBlock) (h : Nat) (f : TimeBlock → Nat)
    (b : TimeBlock) (hbm : b ∈ tbs) (hh : hourOf b.start = h) :
    f b ≤ hourMax tbs h f := by
  unfold hourMax
  apply le_foldl_max
  apply List.mem_map_of_mem
  simp [List.mem_filter, hbm, hh]

theorem hourMax_attained (tbs : List TimeBlock) (h : Nat) (f : TimeBlock → Nat) :
    hourMax tbs h f = 0
      ∨ ∃ b, b ∈ tbs ∧ hourOf b.start = h ∧ f b = hourMax tbs h f := by
  unfold hourMax
  rcases foldl_max_cases ((tbs.filter (fun b => hourOf b.start == h)).map f) 0 with hc | hc
  · left
    exact hc
  · right
    rcases List.mem_map.mp hc with ⟨b, hbmem, hfb⟩
    have hbf := List.mem_filter.mp hbmem
    exact ⟨b, hbf.1, eq_of_beq hbf.2, hfb⟩

theorem mem_aggregate_hourly (tbs : List TimeBlock) (now : Option Nat) (hb : HourBlock) :
    hb ∈ aggregate_hourly tbs now ↔
      tbs ≠ [] ∧ ∃ h, h ∈ sortNat ((tbs.map (fun b => hourOf b.start)).dedup)
        ∧ hourMax tbs h (fun b => b.total) ≠ 0
        ∧ hb = { start := h, stop := h + 60,
                 indoor := hourMax tbs h (fun b => b.indoor),
                 outdoor := hourMax tbs h (fun b => b.outdoor),
                 unassigned := hourMax tbs h (fun b => b.unassigned),
                 total := hourMax tbs h (fun b => b.total),
                 is_past := match now with
                   | some n => decide (h + 60 ≤ n)
                   | none => false } := by
  unfold aggregate_hourly
  split
  · simp_all
  · rename_i hne
    simp only [List.mem_filterMap]
    constructor
    · rintro ⟨h, hmem, hf⟩
      split at hf
      · cases hf
      · rename_i htot
        exact ⟨hne, h, hmem, htot, (Option.some.inj hf).symm⟩
    · rintro ⟨_, h, hmem, htot, rfl⟩
      exact ⟨h, hmem, by rw [if_neg htot]⟩

/-- C8: every emitted hourly bucket spans one clock hour, carries for each
metric the maximum (attained, and an upper bound) over that hour's
15-minute buckets rather than their sum, has a nonzero total, and is marked
past exactly when a now was supplied and the hour's end is at or before it;
conversely every 15-minute bucket with nonzero total has its hour present
in the rollup, so only hours whose maximum total is zero are omitted. -/
theorem aggregate_hourly_rollup (tbs : List TimeBlock) (now : Option Nat) :
    (∀ hb, hb ∈ aggregate_hourly tbs now →
      hb.stop = hb.start + 60
        ∧ hb.total ≠ 0
        ∧ (hb.is_past = true ↔ ∃ n, now = some n ∧ hb.stop ≤ n)
        ∧ (∀ b, b ∈ tbs → hourOf b.start = hb.start →
            b.indoor ≤ hb.indoor ∧ b.outdoor ≤ hb.outdoor
              ∧ b.unassigned ≤ hb.unassigned ∧ b.total ≤ hb.total)
        ∧ (hb.indoor = 0
            ∨ ∃ b, b ∈ tbs ∧ hourOf b.start = hb.start ∧ b.indoor = hb.indoor)
        ∧ (hb.outdoor = 0
            ∨ ∃ b, b ∈ tbs ∧ hourOf b.start = hb.start ∧ b.outdoor = hb.outdoor)
        ∧ (hb.unassigned = 0
            ∨ ∃ b, b ∈ tbs ∧ hourOf b.start = hb.start ∧ b.unassigned = hb.unassigned)
        ∧ (∃ b, b ∈ tbs ∧ hourOf b.start = hb.start ∧ b.total = hb.total))
      ∧ (∀ b, b ∈ tbs → b.total ≠ 0 →
          ∃ hb, hb ∈ aggregate_hourly tbs now ∧ hb.start = hourOf b.start) := by
  constructor
  · intro hb hmem
    rcases (mem_aggregate_hourly tbs now hb).mp hmem with ⟨hne, h, hkey, htot, rfl⟩
    refine ⟨rfl, htot, ?_, ?_, ?_, ?_, ?_, ?_⟩
    · cases now with
      | none => simp
      | some n => simp
    · intro b hbm hh
      exact ⟨hourMax_ub tbs h _ b hbm hh, hourMax_ub tbs h _ b hbm hh,
        hourMax_ub tbs h _ b hbm hh, hourMax_ub tbs h _ b hbm hh⟩
    · rcases hourMax_attained tbs h (fun b => b.indoor) with h0 | ⟨b, hbm, hh, hfb⟩
      · left
        exact h0
      · right
        exact ⟨b, hbm, hh, hfb⟩
    · rcases hourMax_attained tbs h (fun b => b.outdoor) with h0 | ⟨b, hbm, hh, hfb⟩
      · left
        exact h0
      · right
        exact ⟨b, hbm, hh, hfb⟩
    · rcases hourMax_attained tbs h (fun b => b.unassigned) with h0 | ⟨b, hbm, hh, hfb⟩
      · left
        exact h0
      · right
        exact ⟨b, hbm, hh, hfb⟩
    · rcases hourMax_attained tbs h (fun b => b.total) with h0 | ⟨b, hbm, hh, hfb⟩
      · exact absurd h0 htot
      · exact ⟨b, hbm, hh, hfb⟩
  · intro b hbm hbt
    have hne : tbs ≠ [] := List.ne_nil_of_mem hbm
    have hkey : hourOf b.start ∈ sortNat ((tbs.map (fun b => hourOf b.start)).dedup) := by
      rw [mem_sortNat, List.mem_dedup]
      exact List.mem_map_of_mem _ hbm
    have htot : hourMax tbs (hourOf b.start) (fun b => b.total) ≠ 0 := by
      have hub := hourMax_ub tbs (hourOf b.start) (fun b => b.total) b hbm rfl
      intro h0
      rw [h0] at hub
      exact hbt (Nat.le_zero.mp hub)
    refine ⟨_, (mem_aggregate_hourly tbs now _).mpr ⟨hne, hourOf b.start, hkey, htot, rfl⟩, rfl⟩

/-- C8 witness: three quarter-hour buckets with indoor loads 10, 25, 15
inside hour 19 roll up to the single hourly bucket with maximum 25, a
nonzero total, flagged past for a now after the hour's end. -/
theorem aggregate_hourly_rollup_witness :
    hbC8.total ≠ 0 ∧ hbC8.is_past = true := by
  have hmem : hbC8 ∈ aggregate_hourly tbsC8 (some 1300) := by
    have heval : aggregate_hourly tbsC8 (some 1300) = [hbC8] := by decide
    rw [heval]
    exact List.mem_singleton.mpr rfl
  have h := (aggregate_hourly_rollup tbsC8 (some 1300)).1 hbC8 hmem
  exact ⟨h.2.1, h.2.2.1.mpr ⟨1300, rfl, by decide⟩⟩
